import Mathlib

/-!
Verification of the iorest HTTP dispatch helper (src/server.go) against its
specification.  The Go code is shallowly embedded: Go strings are modelled as
Lean strings (the repository only manipulates them at ASCII granularity, where
Go byte indexing and Lean character indexing agree); the `interface` typed
handler result is the inductive `GoVal`; the `error` result is `Option GoErr`;
mutation of the per-request `*Context` is explicit state passing; the
`http.ResponseWriter` is a `Response` record plus, for the raw-byte branch, a
write schedule saying how many bytes each underlying `Write` call accepts.
External collaborators from `net/http` and `encoding/json` (`http.Error`,
`Encoder.Encode`, form parsing, route installation) are modelled at their
documented interface level; logging and the request-body drain
(`io.Copy(ioutil.Discard, r.Body)`) have no observable effect on the response
and are not modelled.  A result of `none` from an operation models a Go
runtime panic (negative index, slicing past the end, failed type assertion)
or divergence of the write loop.
-/

namespace Iorest

/-- Bytes of an ASCII string: the model writes response bodies as lists of
byte values, `strb` converts a Lean string literal to that form (`Char.toNat`,
which agrees with Go's bytes on the ASCII strings this code produces). -/
def strb (s : String) : List Nat :=
  s.data.map Char.toNat

/-- Header map with `Set` semantics of `net/http` (`w.Header().Set`): replaces
the value if the key is present, appends otherwise. -/
def setHeader (hs : List (String × String)) (k v : String) : List (String × String) :=
  if hs.any (fun p => p.1 == k) then
    hs.map (fun p => if p.1 == k then (k, v) else p)
  else
    hs ++ [(k, v)]

/-- First value for a header key, as `w.Header().Get`. -/
def getHeader (hs : List (String × String)) (k : String) : Option String :=
  (hs.find? (fun p => p.1 == k)).map (fun p => p.2)

/-- The observable response: headers, status code and body bytes.  The status
starts at 200, `net/http`'s implicit code when a handler writes a body without
calling `WriteHeader`. -/
structure Response where
  headers : List (String × String)
  status : Int
  body : List Nat
deriving Repr, DecidableEq

/-- Modelled from `net/http` (external collaborator): `http.Error(w, msg, code)`
sets the plain-text content type and the nosniff header, writes the status
code and the message as the body.  The trailing newline `http.Error` adds via
`Fprintln` is a transport detail that is not modelled; the message is appended
to any bytes already written, since earlier writes have already been sent. -/
def httpError (w : Response) (msg : String) (code : Int) : Response :=
  { headers := setHeader (setHeader w.headers "Content-Type" "text/plain; charset=utf-8")
      "X-Content-Type-Options" "nosniff",
    status := code,
    body := w.body ++ strb msg }

/-- Behaviour of one underlying `Write` call on the response writer: it either
accepts a number of bytes of the passed slice (possibly fewer than requested,
a partial write) or fails with an error message. -/
inductive WriteOutcome where
  | accept (n : Nat)
  | fail (msg : String)

/-- `type Error struct` (src/server.go:19-22): the structured error envelope,
a numeric code (JSON tag "error") and a reason (JSON tag "reason").
`Error() string` returns `Reason` (src/server.go:24-26). -/
structure Error where
  Code : Int
  Reason : String
deriving Repr, DecidableEq

/-- `Errorf` (src/server.go:28-30); the `fmt.Sprintf` formatting is an external
collaborator, the model takes the already-formatted message. -/
def Errorf (code : Int) (msg : String) : Error :=
  { Code := code, Reason := msg }

/-- A Go `error` value as the dispatcher can observe it through its type
switch: a value of type `Error`, a pointer `*Error` (which the type switch's
`case Error:` does NOT match), or any other error carrying only a message. -/
inductive GoErr where
  | structured (e : Error)
  | ptrStructured (e : Error)
  | generic (msg : String)
deriving Repr

/-- Whether the dispatcher's `switch err.(type)` matches `case Error:`. -/
def GoErr.isStructured : GoErr → Bool
  | GoErr.structured _ => true
  | _ => false

/-- `err.Error()`: the envelope (and the pointer to it, whose method set
promotes the value receiver) return `Reason`; other errors their message. -/
def errMessage : GoErr → String
  | GoErr.structured e => e.Reason
  | GoErr.ptrStructured e => e.Reason
  | GoErr.generic msg => msg

/-- A handler result of type `interface`: nil, a byte slice, a string, an
integer, a string-keyed map, the `Error` envelope, or a value the JSON encoder
rejects (functions, channels, ...) carried with the encoder's error text. -/
inductive GoVal where
  | vnil
  | vbytes (bs : List Nat)
  | vstr (s : String)
  | vint (n : Int)
  | vmap (fields : List (String × GoVal))
  | verror (e : Error)
  | vunsupported (msg : String)

/-- `isByteArray` (src/server.go:176-179): the reflective check
`Kind() == Slice && Type() == []byte`; in this universe of values only the
byte-slice constructor satisfies it (a nil interface has kind Invalid). -/
def isByteArray : GoVal → Bool
  | GoVal.vbytes _ => true
  | _ => false

/-- JSON syntax tree, used to state what the encoder produces. -/
inductive Json where
  | null
  | num (n : Int)
  | str (s : String)
  | obj (fields : List (String × Json))

/-- Lower-case hexadecimal digit. -/
def hexDigit (n : Nat) : Char :=
  if n < 10 then Char.ofNat (48 + n) else Char.ofNat (87 + n)

/-- Escaping of one character by `encoding/json` with the encoder's default
HTML escaping: quote, backslash, the three named control escapes, the HTML
characters, other control characters as \u00XX, and the two line separators
U+2028/U+2029. -/
def escChar (c : Char) : String :=
  if c = '"' then "\\\""
  else if c = '\\' then "\\\\"
  else if c = '\n' then "\\n"
  else if c = '\r' then "\\r"
  else if c = '\t' then "\\t"
  else if c = '<' then "\\u003c"
  else if c = '>' then "\\u003e"
  else if c = '&' then "\\u0026"
  else if c.toNat < 32 then
    "\\u00" ++ String.singleton (hexDigit (c.toNat / 16)) ++ String.singleton (hexDigit (c.toNat % 16))
  else if c.toNat = 8232 then "\\u2028"
  else if c.toNat = 8233 then "\\u2029"
  else String.singleton c

/-- A JSON string literal with its quotes. -/
def quoteStr (s : String) : String :=
  "\"" ++ String.join (s.data.map escChar) ++ "\""

/-- Standard base64 alphabet (`encoding/json` encodes byte slices as base64
strings). -/
def b64Char (n : Nat) : Char :=
  "ABCDEFGHIJKLMNOPQRSTUVWXYZabcdefghijklmnopqrstuvwxyz0123456789+/".data.getD n 'A'

/-- Standard base64 of a byte list. -/
def base64 : List Nat → String
  | [] => ""
  | [a] =>
    String.mk [b64Char (a / 4), b64Char (a % 4 * 16)] ++ "=="
  | [a, b] =>
    String.mk [b64Char (a / 4), b64Char (a % 4 * 16 + b / 16), b64Char (b % 16 * 4)] ++ "="
  | a :: b :: c :: rest =>
    String.mk [b64Char (a / 4), b64Char (a % 4 * 16 + b / 16),
      b64Char (b % 16 * 4 + c / 64), b64Char (c % 64)] ++ base64 rest

mutual

/-- Serialization of the JSON tree, exactly as `encoding/json` prints it
(no spaces, fields in order). -/
def Json.render : Json → String
  | Json.null => "null"
  | Json.num n => toString n
  | Json.str s => quoteStr s
  | Json.obj fields => "\x7b" ++ Json.renderFields fields ++ "\x7d"

/-- Comma-separated `"key":value` list. -/
def Json.renderFields : List (String × Json) → String
  | [] => ""
  | [(k, v)] => quoteStr k ++ ":" ++ Json.render v
  | (k, v) :: rest => quoteStr k ++ ":" ++ Json.render v ++ "," ++ Json.renderFields rest

end

mutual

/-- What `json.Marshal` produces on a handler result: `nil` encodes as null,
byte slices as base64 strings, the `Error` envelope by its struct tags as an
object with exactly the fields "error" and "reason" (src/server.go:19-22), and
unsupported values make the encoder fail with its error text.  (Go sorts map
keys when encoding; no claim exercises a map with more than zero fields, so
fields are rendered in order here.) -/
def toJsonAst : GoVal → Except String Json
  | GoVal.vnil => Except.ok Json.null
  | GoVal.vbytes bs => Except.ok (Json.str (base64 bs))
  | GoVal.vstr s => Except.ok (Json.str s)
  | GoVal.vint n => Except.ok (Json.num n)
  | GoVal.vmap fields =>
    match toJsonFields fields with
    | Except.ok out => Except.ok (Json.obj out)
    | Except.error msg => Except.error msg
  | GoVal.verror e =>
    Except.ok (Json.obj [("error", Json.num e.Code), ("reason", Json.str e.Reason)])
  | GoVal.vunsupported msg => Except.error msg

/-- Field-wise encoding of a map value. -/
def toJsonFields : List (String × GoVal) → Except String (List (String × Json))
  | [] => Except.ok []
  | (k, v) :: rest =>
    match toJsonAst v, toJsonFields rest with
    | Except.ok jv, Except.ok out => Except.ok ((k, jv) :: out)
    | Except.error msg, _ => Except.error msg
    | _, Except.error msg => Except.error msg

end

/-- The parts of `*http.Request` the dispatcher reads.  `formErr` is the
result of `r.ParseForm()` (`none` on success) and `form` the parsed
`r.Form.Get`, which returns the empty string for absent keys — both supplied
by the external framework. -/
structure Request where
  method : String
  urlPath : String
  formErr : Option String
  form : String → String
  remoteAddr : String
  host : String
  tls : Bool

/-- `type Context struct` (src/server.go:32-37). -/
structure Context where
  request : Request
  paths : List String
  resType : String
  resCode : Int

/-- `Context.Method` (src/server.go:52-54). -/
def Context.Method (c : Context) : String :=
  c.request.method

/-- `Context.URI` (src/server.go:56-58). -/
def Context.URI (c : Context) : String :=
  c.request.urlPath

/-- `Context.Path` (src/server.go:60-65): `i` is a Go `int` and may be
negative; `i >= len(c.paths)` yields the empty string, otherwise the code
indexes `c.paths[i]`, which for negative `i` panics — modelled as `none`. -/
def Context.Path (c : Context) (i : Int) : Option String :=
  if (c.paths.length : Int) ≤ i then some ""
  else if 0 ≤ i then c.paths.get? i.toNat
  else none

/-- `Context.FormValue` (src/server.go:67-73). -/
def Context.FormValue (c : Context) (name preset : String) : String :=
  if c.request.form name == "" then preset else c.request.form name

/-- `Context.IsTLS` (src/server.go:75-77). -/
def Context.IsTLS (c : Context) : Bool :=
  c.request.tls

/-- `Context.Host` (src/server.go:79-81). -/
def Context.Host (c : Context) : String :=
  c.request.host

/-- `Context.SetResourceType` (src/server.go:88-90). -/
def Context.SetResourceType (c : Context) (t : String) : Context :=
  { c with resType := t }

/-- `Context.SetErrorResponseCode` (src/server.go:92-94). -/
def Context.SetErrorResponseCode (c : Context) (code : Int) : Context :=
  { c with resCode := code }

/-- `type Handler func(*Context) (interface, error)` (src/server.go:96); the
handler's writes through the context pointer are the returned context. -/
def Handler : Type :=
  Context → Context × GoVal × Option GoErr

/-- `type Server struct` (src/server.go:98-102); the Go map is its lookup
function (a nil map looks up to the zero value, `none`). -/
structure Server where
  Prefix : String
  registered : Bool
  handlers : String → Option Handler

/-- `strings.Split(suffix, "/")`: structural splitter over the character
list, with Go's semantics (never empty; splitting the empty string yields
one empty segment). -/
def splitSlashAux : List Char → List Char → List String
  | [], acc => [String.mk acc.reverse]
  | c :: rest, acc =>
    if c = '/' then String.mk acc.reverse :: splitSlashAux rest []
    else splitSlashAux rest (c :: acc)

/-- `splits := strings.Split(r.URL.Path[len(s.Prefix):], "/")`
(src/server.go:112-113), the slicing done on the character list. -/
def routeSplits (s : Server) (r : Request) : List String :=
  splitSlashAux (r.urlPath.data.drop s.Prefix.length) []

/-- `resource := splits[0]` (src/server.go:114); `strings.Split` never returns
an empty list, so the default is unreachable. -/
def routeResource (s : Server) (r : Request) : String :=
  (routeSplits s r).headD ""

/-- The context built for each request (src/server.go:125): parsed path
segments, default resource type, unset (-1) error-code override. -/
def mkCtx (r : Request) (splits : List String) : Context :=
  { request := r, paths := splits, resType := "application/json", resCode := -1 }

/-- The response after the unconditional CORS/nosniff prelude
(src/server.go:105-108). -/
def baseResponse : Response :=
  { headers :=
      setHeader (setHeader (setHeader (setHeader [] "Access-Control-Allow-Origin" "*")
        "Access-Control-Allow-Methods" "GET, POST, PUT, DELETE, OPTIONS")
        "Access-Control-Allow-Headers" "Content-Type, Accept")
        "X-Content-Type-Options" "nosniff",
    status := 200,
    body := [] }

/-- The byte-output loop (src/server.go:160-170): while `off < len(bytes)`
it calls `w.Write(res.([]byte))` — note: the WHOLE slice again on every
iteration, not `bytes[off:]` — adds the returned count to `off`, and on a
write error responds 500 with the error text.  `sched k` is the behaviour of
the k-th `Write` call; `fuel` bounds the iterations, `none` modelling the
divergence that Go would exhibit if every call accepted zero bytes. -/
def writeLoop (sched : Nat → WriteOutcome) : Nat → Nat → List Nat → Nat → Response → Option Response
  | 0, _, _, _, _ => none
  | fuel + 1, k, bytes, off, w =>
    if off < bytes.length then
      match sched k with
      | WriteOutcome.fail msg => some (httpError w msg 500)
      | WriteOutcome.accept m =>
        writeLoop sched fuel (k + 1) bytes (off + min m bytes.length)
          { w with body := w.body ++ bytes.take (min m bytes.length) }
    else some w

/-- `if res == nil` substitution with `make(map[string]interface)`
(src/server.go:145-147). -/
def substNil : GoVal → GoVal
  | GoVal.vnil => GoVal.vmap []
  | x => x

/-- The encoding step (src/server.go:143-171): set `Content-Type` to the
context's resource type; in the JSON case substitute the empty map for nil
and write the encoding (`Encoder.Encode`; its trailing newline is a transport
detail not modelled), responding 500 with the encoder's error text if it
fails; otherwise require a byte slice (else 500 with empty body,
src/server.go:155-158) and run the write loop on it.  The failed type
assertion arm is unreachable because `isByteArray` guards it. -/
def encodeResponse (w : Response) (ctx : Context) (res : GoVal)
    (sched : Nat → WriteOutcome) (fuel : Nat) : Option Response :=
  let w1 : Response := { w with headers := setHeader w.headers "Content-Type" ctx.resType }
  if ctx.resType = "application/json" then
    match toJsonAst (substNil res) with
    | Except.ok j => some { w1 with body := w1.body ++ strb (Json.render j) }
    | Except.error msg => some (httpError w1 msg 500)
  else
    if isByteArray res then
      match res with
      | GoVal.vbytes bs => writeLoop sched fuel 0 bs 0 w1
      | _ => none
    else
      some (httpError w1 "" 500)

/-- Outcome classification (src/server.go:128-142): the type switch on `err`.
`case Error:` replaces the result with the envelope and proceeds to encoding;
any other non-nil error responds with the error text and the override code if
set (`!= -1`), else 500; a nil error proceeds to encoding with the handler's
result.  (The warning log lines have no observable effect on the response.) -/
def dispatch : Context × GoVal × Option GoErr → (Nat → WriteOutcome) → Nat → Option Response
  | (ctx, _, some (GoErr.structured envl)), sched, fuel =>
    encodeResponse baseResponse ctx (GoVal.verror envl) sched fuel
  | (ctx, _, some e), _, _ =>
    some (httpError baseResponse (errMessage e)
      (if ctx.resCode ≠ -1 then ctx.resCode else 500))
  | (ctx, res, none), sched, fuel => encodeResponse baseResponse ctx res sched fuel

/-- `Server.serveHTTP` (src/server.go:104-172).  After the CORS prelude an
`OPTIONS` request returns immediately; the path is sliced past the prefix
(`none` models the panic when the path is shorter than the prefix) and split;
an unknown resource responds 404; a form-parse failure responds 500; otherwise
the handler runs on a fresh context and the outcome is dispatched.  `sched`
and `fuel` parameterize the underlying writer for the raw-byte branch. -/
def Server.serveHTTP (s : Server) (r : Request) (sched : Nat → WriteOutcome) (fuel : Nat) :
    Option Response :=
  if r.method = "OPTIONS" then some baseResponse
  else if s.Prefix.length ≤ r.urlPath.length then
    match s.handlers (routeResource s r) with
    | none =>
      some (httpError baseResponse ("No such resource \x27" ++ routeResource s r ++ "\x27") 404)
    | some handler =>
      match r.formErr with
      | some msg => some (httpError baseResponse msg 500)
      | none => dispatch (handler (mkCtx r (routeSplits s r))) sched fuel
  else none

/-- `Server.HandleFunc` (src/server.go:181-190): on the first call for this
instance it installs `serveHTTP` with the framework (`http.HandleFunc`) — the
returned flag records whether that external call happened — and it stores the
handler under the resource name, replacing any earlier one.  (The `nil` map
initialisation is invisible in the functional map model.) -/
def Server.HandleFunc (s : Server) (resource : String) (handler : Handler) : Server × Bool :=
  let fresh := !s.registered
  let s1 := if fresh then { s with registered := true } else s
  ({ s1 with handlers := fun k => if k == resource then some handler else s1.handlers k }, fresh)

/-- A sequence of `HandleFunc` calls, counting how many of them performed the
server-level route registration. -/
def runHandleFuncs (s : Server) : List (String × Handler) → Server × Nat
  | [] => (s, 0)
  | (r, h) :: rest =>
    let p := s.HandleFunc r h
    let q := runHandleFuncs p.1 rest
    (q.1, (if p.2 then 1 else 0) + q.2)

/-- A concrete GET request to the given path, with form parsing succeeding. -/
def reqEx (p : String) : Request :=
  { method := "GET", urlPath := p, formErr := none, form := fun _ => "",
    remoteAddr := "1.2.3.4:5", host := "example.com", tls := false }

/-- A concrete server with one handler registered under "res". -/
def srv1 (h : Handler) : Server :=
  { Prefix := "/api/", registered := true,
    handlers := fun k => if k == "res" then some h else none }

/-- The zero-value `Server` (fresh instance, nothing registered). -/
def zeroSrv : Server :=
  { Prefix := "/api/", registered := false, handlers := fun _ => none }

/-- A writer that accepts every write whole. -/
def schedAll : Nat → WriteOutcome := fun _ => WriteOutcome.accept 1000000

/-- A writer that accepts one byte on the first call and everything
afterwards: a single partial write. -/
def schedPart : Nat → WriteOutcome := fun k =>
  if k = 0 then WriteOutcome.accept 1 else WriteOutcome.accept 1000000

/-- Handler returning the structured envelope after declaring a plain-text
resource type. -/
def hEnvText : Handler := fun c =>
  (Context.SetResourceType c "text/plain", GoVal.vnil,
    some (GoErr.structured { Code := 1, Reason := "x" }))

/-- Handler returning the bytes of "ab" under a non-JSON resource type. -/
def hBytesAB : Handler := fun c =>
  (Context.SetResourceType c "application/octet-stream", GoVal.vbytes (strb "ab"), none)

/-- Handler overriding the error status to 418 and failing with an opaque
error. -/
def hTeapot : Handler := fun c =>
  (Context.SetErrorResponseCode c 418, GoVal.vnil, some (GoErr.generic "boom"))

/-- Handler returning the structured envelope with code 42 and reason "bad". -/
def hEnv42 : Handler := fun c =>
  (c, GoVal.vnil, some (GoErr.structured (Errorf 42 "bad")))

/-- Handler returning (nil, nil). -/
def hNilNil : Handler := fun c => (c, GoVal.vnil, none)

/-- Handler returning (nil, nil) under a non-JSON resource type. -/
def hNilText : Handler := fun c =>
  (Context.SetResourceType c "text/plain", GoVal.vnil, none)

/-- Handler returning a pointer to the envelope as its error. -/
def hPtrEnv : Handler := fun c =>
  (c, GoVal.vnil, some (GoErr.ptrStructured { Code := 7, Reason := "oops" }))

/-- Handler calling SetErrorResponseCode(-1) and failing with an opaque
error. -/
def hMinusOne : Handler := fun c =>
  (Context.SetErrorResponseCode c (-1), GoVal.vnil, some (GoErr.generic "boom"))

/-- A second trivial handler, distinguishable from `hNilNil` in the registry
claims. -/
def hStrRes : Handler := fun c => (c, GoVal.vstr "x", none)

section Lemmas

/-- Once the request is routed to a handler (not OPTIONS, path at least as
long as the prefix, resource registered, form parsing succeeded), serving is
dispatching on the handler's outcome. -/
theorem serve_dispatch (s : Server) (r : Request) (sched : Nat → WriteOutcome) (fuel : Nat)
    (h : Handler)
    (hm : ¬ r.method = "OPTIONS")
    (hp : s.Prefix.length ≤ r.urlPath.length)
    (hh : s.handlers (routeResource s r) = some h)
    (hf : r.formErr = none) :
    Server.serveHTTP s r sched fuel = dispatch (h (mkCtx r (routeSplits s r))) sched fuel := by
  unfold Server.serveHTTP
  rw [if_neg hm, if_pos hp, hh, hf]

/-- JSON branch of the encoder: when the value encodes, the body is its
rendering. -/
theorem encode_json_body (ctx : Context) (res : GoVal) (sched : Nat → WriteOutcome) (fuel : Nat)
    (j : Json) (hty : ctx.resType = "application/json")
    (hj : toJsonAst (substNil res) = Except.ok j) :
    (encodeResponse baseResponse ctx res sched fuel).map Response.body
      = some (strb (Json.render j)) := by
  simp [encodeResponse, hty, hj, baseResponse]

/-- Non-JSON branch on a value that is not a byte slice: 500 and empty
body. -/
theorem encode_nonjson_nonbytes (ctx : Context) (res : GoVal) (sched : Nat → WriteOutcome)
    (fuel : Nat) (hty : ¬ ctx.resType = "application/json") (hb : isByteArray res = false) :
    (encodeResponse baseResponse ctx res sched fuel).map Response.status = some 500
    ∧ (encodeResponse baseResponse ctx res sched fuel).map Response.body = some [] := by
  constructor <;> simp [encodeResponse, hty, hb, httpError, baseResponse, strb]

/-- A server that is already route-registered performs no further server-level
registrations, whatever calls follow. -/
theorem runHandleFuncs_registered (calls : List (String × Handler)) :
    ∀ s : Server, s.registered = true → (runHandleFuncs s calls).2 = 0 := by
  induction calls with
  | nil => intro s _; rfl
  | cons c rest ih =>
    intro s hs
    obtain ⟨r, h⟩ := c
    simp only [runHandleFuncs, Server.HandleFunc, hs]
    simpa using ih _ (by simp [hs])

end Lemmas

/-- Claim C1, counterexample: a handler that declares resource type
"text/plain" and returns the structured envelope with code 1 and reason "x"
gets an HTTP 500 response with an EMPTY body — not the JSON serialization of
the envelope, contradicting "regardless of the resource type". -/
theorem claim1_counterexample :
    (Server.serveHTTP (srv1 hEnvText) (reqEx "/api/res") schedAll 9).map Response.body
        = some []
    ∧ (Server.serveHTTP (srv1 hEnvText) (reqEx "/api/res") schedAll 9).map Response.status
        = some 500
    ∧ (some ([] : List Nat)) ≠ some (strb "\x7b\"error\":1,\"reason\":\"x\"\x7d") := by
  refine ⟨by decide, by decide, by decide⟩

/-- Claim C1 as amended: a structured envelope error is rendered as the JSON
envelope when the context's resource type is "application/json" (the
default); when the handler declared any other resource type, the envelope is
not a byte slice, so the response is HTTP 500 with an empty body. -/
theorem claim1_amended_envelope (s : Server) (r : Request) (sched : Nat → WriteOutcome)
    (fuel : Nat) (h : Handler) (ctx' : Context) (res0 : GoVal) (envl : Error)
    (hm : ¬ r.method = "OPTIONS")
    (hp : s.Prefix.length ≤ r.urlPath.length)
    (hh : s.handlers (routeResource s r) = some h)
    (hf : r.formErr = none)
    (hout : h (mkCtx r (routeSplits s r)) = (ctx', res0, some (GoErr.structured envl))) :
    (ctx'.resType = "application/json" →
      (Server.serveHTTP s r sched fuel).map Response.body
        = some (strb (Json.render
            (Json.obj [("error", Json.num envl.Code), ("reason", Json.str envl.Reason)]))))
    ∧ (¬ ctx'.resType = "application/json" →
      (Server.serveHTTP s r sched fuel).map Response.status = some 500
      ∧ (Server.serveHTTP s r sched fuel).map Response.body = some []) := by
  rw [serve_dispatch s r sched fuel h hm hp hh hf, hout]
  constructor
  · intro hty
    exact encode_json_body ctx' (GoVal.verror envl) sched fuel _ hty rfl
  · intro hty
    exact encode_nonjson_nonbytes ctx' (GoVal.verror envl) sched fuel hty rfl

/-- Witness for the amended C1: both branches at concrete inputs.  The JSON
branch uses the envelope with code 42, reason "bad"; the text branch uses
`hEnvText`. -/
theorem claim1_amended_witness :
    (Server.serveHTTP (srv1 hEnv42) (reqEx "/api/res") schedAll 9).map Response.body
        = some (strb "\x7b\"error\":42,\"reason\":\"bad\"\x7d")
    ∧ (Server.serveHTTP (srv1 hEnvText) (reqEx "/api/res") schedAll 9).map Response.status
        = some 500 := by
  constructor
  · have h1 := (claim1_amended_envelope (srv1 hEnv42) (reqEx "/api/res") schedAll 9 hEnv42
      (mkCtx (reqEx "/api/res") (routeSplits (srv1 hEnv42) (reqEx "/api/res")))
      GoVal.vnil (Errorf 42 "bad") (by decide) (by decide) rfl rfl rfl).1 rfl
    simpa using h1
  · have h2 := (claim1_amended_envelope (srv1 hEnvText) (reqEx "/api/res") schedAll 9 hEnvText
      (Context.SetResourceType
        (mkCtx (reqEx "/api/res") (routeSplits (srv1 hEnvText) (reqEx "/api/res"))) "text/plain")
      GoVal.vnil { Code := 1, Reason := "x" } (by decide) (by decide) rfl rfl rfl).2 (by decide)
    exact h2.1

/-- Claim C2, evaluated at the failing input: the handler declares a non-JSON
resource type and returns the bytes of "ab"; the underlying writer accepts
one byte on the first call and everything afterwards.  Because the loop at
src/server.go:163 retries `w.Write` with the WHOLE slice instead of the
remainder, the response body is "aab", not the exact bytes "ab" the claim
requires. -/
theorem claim2_write_loop_duplicates :
    (Server.serveHTTP (srv1 hBytesAB) (reqEx "/api/res") schedPart 3).map Response.body
        = some (strb "aab")
    ∧ strb "aab" ≠ strb "ab" := by
  refine ⟨by decide, by decide⟩

/-- Claim C3, counterexample: `Path` is total only for non-negative indices;
at i = -1 the guard `i >= len(c.paths)` does not fire and `c.paths[-1]`
panics (modelled by `none`) instead of returning the empty string. -/
theorem claim3_counterexample :
    Context.Path (mkCtx (reqEx "/api/a") ["a"]) (-1) = none
    ∧ Context.Path (mkCtx (reqEx "/api/a") ["a"]) (-1) ≠ some "" := by
  refine ⟨rfl, by decide⟩

/-- Claim C3 as amended: for every NON-NEGATIVE index i, `Path i` never fails
and returns the i-th segment in bounds, the empty string out of bounds
(`List.getD` with default "" is exactly that); a negative i is a panic. -/
theorem claim3_amended_path (c : Context) (i : Int) (h : 0 ≤ i) :
    Context.Path c i = some (c.paths.getD i.toNat "") := by
  unfold Context.Path
  by_cases hlen : (c.paths.length : Int) ≤ i
  · rw [if_pos hlen, List.getD_eq_default]
    omega
  · rw [if_neg hlen, if_pos h]
    have hlt : i.toNat < c.paths.length := by omega
    rw [List.getD_eq_getElem?_getD, List.getElem?_eq_getElem hlt, List.get?_eq_getElem?,
      List.getElem?_eq_getElem hlt]
    rfl

/-- Witness for the amended C3: on the segments ["res", "7"], index 1 is "7"
and index 5 (far out of bounds) is the empty string. -/
theorem claim3_amended_witness :
    Context.Path (mkCtx (reqEx "/api/res/7") ["res", "7"]) 1 = some "7"
    ∧ Context.Path (mkCtx (reqEx "/api/res/7") ["res", "7"]) 5 = some "" := by
  refine ⟨?_, ?_⟩
  · have := claim3_amended_path (mkCtx (reqEx "/api/res/7") ["res", "7"]) 1 (by decide)
    simpa using this
  · have := claim3_amended_path (mkCtx (reqEx "/api/res/7") ["res", "7"]) 5 (by decide)
    simpa using this

/-- Claim C5: the envelope marshals to an object with exactly the fixed field
names "error" and "reason" (its struct tags), and concretely a handler
returning the structured error with code 42, reason "bad" yields the response
body whose JSON text is exactly that two-field object. -/
theorem claim5_envelope_serialization :
    (∀ e : Error, toJsonAst (GoVal.verror e)
        = Except.ok (Json.obj [("error", Json.num e.Code), ("reason", Json.str e.Reason)]))
    ∧ (Server.serveHTTP (srv1 hEnv42) (reqEx "/api/res") schedAll 9).map Response.body
        = some (strb "\x7b\"error\":42,\"reason\":\"bad\"\x7d") := by
  refine ⟨fun e => rfl, by decide⟩

/-- Claim C7: a later registration for the same resource name replaces the
earlier handler, and the server-level route registration (the external
`http.HandleFunc` call, recorded by the returned flag) happens exactly once
per instance, on the first `HandleFunc` call. -/
theorem claim7_registration :
    (∀ (s : Server) (r : String) (h h' : Handler),
      (((s.HandleFunc r h).1).HandleFunc r h').1.handlers r = some h')
    ∧ (∀ (s : Server) (r : String) (h : Handler) (rest : List (String × Handler)),
      s.registered = false →
        (s.HandleFunc r h).2 = true
        ∧ (runHandleFuncs s ((r, h) :: rest)).2 = 1) := by
  constructor
  · intro s r h h'
    simp [Server.HandleFunc]
  · intro s r h rest hs
    constructor
    · simp [Server.HandleFunc, hs]
    · have hreg : ((s.HandleFunc r h).1).registered = true := by
        simp [Server.HandleFunc, hs]
      have hz := runHandleFuncs_registered rest ((s.HandleFunc r h).1) hreg
      simp only [runHandleFuncs]
      simp [Server.HandleFunc, hs] at hz ⊢
      exact hz

/-- Witness for C7: on the zero-value server, the first call registers the
route, a two-call sequence registers exactly once, and re-registering "a"
routes to the newer handler. -/
theorem claim7_witness :
    ((zeroSrv.HandleFunc "a" hNilNil).2 = true
      ∧ (runHandleFuncs zeroSrv [("a", hNilNil), ("b", hNilNil)]).2 = 1)
    ∧ (((zeroSrv.HandleFunc "a" hNilNil).1).HandleFunc "a" hStrRes).1.handlers "a"
        = some hStrRes :=
  ⟨claim7_registration.2 zeroSrv "a" hNilNil [("b", hNilNil)] rfl,
   claim7_registration.1 zeroSrv "a" hNilNil hStrRes⟩

/-- Claim C4: a non-nil error that is not the structured envelope responds
with the error's message text as the body, plain-text content type (no
further encoding), and status equal to the context's override when one was
set through `SetErrorResponseCode` (the sentinel -1 meaning unset), else
500. -/
theorem claim4_opaque_error_response (s : Server) (r : Request) (sched : Nat → WriteOutcome)
    (fuel : Nat) (h : Handler) (ctx' : Context) (res0 : GoVal) (e : GoErr)
    (hm : ¬ r.method = "OPTIONS")
    (hp : s.Prefix.length ≤ r.urlPath.length)
    (hh : s.handlers (routeResource s r) = some h)
    (hf : r.formErr = none)
    (hout : h (mkCtx r (routeSplits s r)) = (ctx', res0, some e))
    (hne : e.isStructured = false) :
    (Server.serveHTTP s r sched fuel).map Response.status
        = some (if ctx'.resCode ≠ -1 then ctx'.resCode else 500)
    ∧ (Server.serveHTTP s r sched fuel).map Response.body = some (strb (errMessage e))
    ∧ (Server.serveHTTP s r sched fuel).map (fun resp => getHeader resp.headers "Content-Type")
        = some (some "text/plain; charset=utf-8") := by
  rw [serve_dispatch s r sched fuel h hm hp hh hf, hout]
  cases e with
  | structured envl => simp [GoErr.isStructured] at hne
  | ptrStructured envl =>
    refine ⟨rfl, rfl, ?_⟩
    simp [dispatch, httpError, getHeader, baseResponse, setHeader]
  | generic msg =>
    refine ⟨rfl, rfl, ?_⟩
    simp [dispatch, httpError, getHeader, baseResponse, setHeader]

/-- Witness for C4: the handler overrides the status to 418 and fails with
the opaque error "boom": status 418, body "boom"; and a handler that never
overrides gets status 500. -/
theorem claim4_witness :
    (Server.serveHTTP (srv1 hTeapot) (reqEx "/api/res") schedAll 9).map Response.status
        = some 418
    ∧ (Server.serveHTTP (srv1 hTeapot) (reqEx "/api/res") schedAll 9).map Response.body
        = some (strb "boom") := by
  have h := claim4_opaque_error_response (srv1 hTeapot) (reqEx "/api/res") schedAll 9 hTeapot
    (Context.SetErrorResponseCode
      (mkCtx (reqEx "/api/res") (routeSplits (srv1 hTeapot) (reqEx "/api/res"))) 418)
    GoVal.vnil (GoErr.generic "boom") (by decide) (by decide) rfl rfl rfl rfl
  exact ⟨by simpa using h.1, h.2.1⟩

/-- Claim C6: under the default "application/json" resource type, a handler
returning (nil, nil) yields the JSON body of the substituted empty map: the
empty object. -/
theorem claim6_nil_json_empty_object (s : Server) (r : Request) (sched : Nat → WriteOutcome)
    (fuel : Nat) (h : Handler) (ctx' : Context)
    (hm : ¬ r.method = "OPTIONS")
    (hp : s.Prefix.length ≤ r.urlPath.length)
    (hh : s.handlers (routeResource s r) = some h)
    (hf : r.formErr = none)
    (hout : h (mkCtx r (routeSplits s r)) = (ctx', GoVal.vnil, none))
    (hty : ctx'.resType = "application/json") :
    (Server.serveHTTP s r sched fuel).map Response.body = some (strb "\x7b\x7d") := by
  rw [serve_dispatch s r sched fuel h hm hp hh hf, hout]
  have := encode_json_body ctx' GoVal.vnil sched fuel (Json.obj []) hty rfl
  simpa [dispatch] using this

/-- Witness for C6 at a concrete request. -/
theorem claim6_witness :
    (Server.serveHTTP (srv1 hNilNil) (reqEx "/api/res") schedAll 9).map Response.body
        = some (strb "\x7b\x7d") :=
  claim6_nil_json_empty_object (srv1 hNilNil) (reqEx "/api/res") schedAll 9 hNilNil
    (mkCtx (reqEx "/api/res") (routeSplits (srv1 hNilNil) (reqEx "/api/res")))
    (by decide) (by decide) rfl rfl rfl rfl

/-- Claim C8: under a non-JSON resource type, a handler returning (nil, nil)
gets HTTP 500 with an empty body, because the nil result fails the
byte-slice check (a nil interface has reflect kind Invalid). -/
theorem claim8_nonjson_nil_500 (s : Server) (r : Request) (sched : Nat → WriteOutcome)
    (fuel : Nat) (h : Handler) (ctx' : Context)
    (hm : ¬ r.method = "OPTIONS")
    (hp : s.Prefix.length ≤ r.urlPath.length)
    (hh : s.handlers (routeResource s r) = some h)
    (hf : r.formErr = none)
    (hout : h (mkCtx r (routeSplits s r)) = (ctx', GoVal.vnil, none))
    (hty : ¬ ctx'.resType = "application/json") :
    (Server.serveHTTP s r sched fuel).map Response.status = some 500
    ∧ (Server.serveHTTP s r sched fuel).map Response.body = some [] := by
  rw [serve_dispatch s r sched fuel h hm hp hh hf, hout]
  exact encode_nonjson_nonbytes ctx' GoVal.vnil sched fuel hty rfl

/-- Witness for C8 at a concrete request. -/
theorem claim8_witness :
    (Server.serveHTTP (srv1 hNilText) (reqEx "/api/res") schedAll 9).map Response.status
        = some 500
    ∧ (Server.serveHTTP (srv1 hNilText) (reqEx "/api/res") schedAll 9).map Response.body
        = some [] :=
  claim8_nonjson_nil_500 (srv1 hNilText) (reqEx "/api/res") schedAll 9 hNilText
    (Context.SetResourceType
      (mkCtx (reqEx "/api/res") (routeSplits (srv1 hNilText) (reqEx "/api/res"))) "text/plain")
    (by decide) (by decide) rfl rfl rfl (by decide)

/-- Claim C9: a handler returning a POINTER to the envelope is not matched by
`case Error:` of the type switch, so it takes the opaque path: plain-text
response whose body is the envelope's reason (the promoted `Error()` method)
with status 500 or the override — not the JSON envelope. -/
theorem claim9_pointer_envelope_opaque (s : Server) (r : Request) (sched : Nat → WriteOutcome)
    (fuel : Nat) (h : Handler) (ctx' : Context) (res0 : GoVal) (envl : Error)
    (hm : ¬ r.method = "OPTIONS")
    (hp : s.Prefix.length ≤ r.urlPath.length)
    (hh : s.handlers (routeResource s r) = some h)
    (hf : r.formErr = none)
    (hout : h (mkCtx r (routeSplits s r)) = (ctx', res0, some (GoErr.ptrStructured envl))) :
    (Server.serveHTTP s r sched fuel).map Response.status
        = some (if ctx'.resCode ≠ -1 then ctx'.resCode else 500)
    ∧ (Server.serveHTTP s r sched fuel).map Response.body = some (strb envl.Reason)
    ∧ (Server.serveHTTP s r sched fuel).map (fun resp => getHeader resp.headers "Content-Type")
        = some (some "text/plain; charset=utf-8") := by
  rw [serve_dispatch s r sched fuel h hm hp hh hf, hout]
  refine ⟨rfl, rfl, ?_⟩
  simp [dispatch, httpError, getHeader, baseResponse, setHeader]

/-- Witness for C9: pointer envelope with reason "oops", no override: body
"oops", status 500, plain-text content type. -/
theorem claim9_witness :
    (Server.serveHTTP (srv1 hPtrEnv) (reqEx "/api/res") schedAll 9).map Response.status
        = some 500
    ∧ (Server.serveHTTP (srv1 hPtrEnv) (reqEx "/api/res") schedAll 9).map Response.body
        = some (strb "oops") := by
  have h := claim9_pointer_envelope_opaque (srv1 hPtrEnv) (reqEx "/api/res") schedAll 9 hPtrEnv
    (mkCtx (reqEx "/api/res") (routeSplits (srv1 hPtrEnv) (reqEx "/api/res")))
    GoVal.vnil { Code := 7, Reason := "oops" } (by decide) (by decide) rfl rfl rfl
  exact ⟨by simpa using h.1, h.2.1⟩

/-- Claim C10: -1 is the internal "unset" sentinel, so a handler calling
`SetErrorResponseCode(-1)` leaves the freshly built context unchanged
(`resCode` starts at -1), and an opaque error then gets status 500. -/
theorem claim10_minus_one_sentinel (s : Server) (r : Request) (sched : Nat → WriteOutcome)
    (fuel : Nat) (v : GoVal) (m : String)
    (hm : ¬ r.method = "OPTIONS")
    (hp : s.Prefix.length ≤ r.urlPath.length)
    (hh : s.handlers (routeResource s r)
        = some (fun c => (Context.SetErrorResponseCode c (-1), v, some (GoErr.generic m))))
    (hf : r.formErr = none) :
    (Server.serveHTTP s r sched fuel).map Response.status = some 500
    ∧ (Server.serveHTTP s r sched fuel).map Response.body = some (strb m)
    ∧ Context.SetErrorResponseCode (mkCtx r (routeSplits s r)) (-1)
        = mkCtx r (routeSplits s r) := by
  rw [serve_dispatch s r sched fuel _ hm hp hh hf]
  exact ⟨rfl, rfl, rfl⟩

/-- Witness for C10 at a concrete request. -/
theorem claim10_witness :
    (Server.serveHTTP (srv1 hMinusOne) (reqEx "/api/res") schedAll 9).map Response.status
        = some 500
    ∧ (Server.serveHTTP (srv1 hMinusOne) (reqEx "/api/res") schedAll 9).map Response.body
        = some (strb "boom") := by
  have h := claim10_minus_one_sentinel (srv1 hMinusOne) (reqEx "/api/res") schedAll 9
    GoVal.vnil "boom" (by decide) (by decide) rfl rfl
  exact ⟨h.1, h.2.1⟩

end Iorest
